import Mathlib

/-!
Verification of the dual-state particle/instance morphing engine:
signal filter (exponential smoothing of the gesture signal), procedural
field generator (cone / spherical-shell / spiral placement), morph
animator (position blending, noise, orientation), and the per-frame
state discipline, embedded shallowly from the TypeScript source.
-/

namespace MorphEngine

/-! ### Signal filter (App.tsx, animation loop)

The loop body is
  `const target = gestureData.isOpen ? 1 : 0;
   progressRef.current += (target - progressRef.current) * 0.05;`
Rationals model the exact arithmetic of the update rule. -/

/-- One tick of the exponential smoother: `p += (target - p) * 0.05` (App.tsx:99-101). -/
def progressStep (target p : ℚ) : ℚ := p + (target - p) * (1/20)

/-- Progress after `n` consecutive ticks whose samples all report the same target. -/
def progressIter (target p0 : ℚ) : ℕ → ℚ
  | 0 => p0
  | n + 1 => progressStep target (progressIter target p0 n)

/-- Progress after running an arbitrary tick sequence; each tick's sample
reports `isOpen` as a boolean, mapped to target 1 or 0 as in App.tsx:99. -/
def progressRun (ticks : List Bool) (p : ℚ) : ℚ :=
  ticks.foldl (fun q b => progressStep (if b then 1 else 0) q) p

lemma progressIter_sub_target (target p0 : ℚ) (n : ℕ) :
    progressIter target p0 n - target = (p0 - target) * (19/20) ^ n := by
  induction n with
  | zero => simp [progressIter]
  | succ n ih =>
    simp only [progressIter, progressStep, pow_succ]
    rw [show progressIter target p0 n + (target - progressIter target p0 n) * (1/20) - target
        = (progressIter target p0 n - target) * (19/20) by ring, ih]
    ring

lemma abs_progressIter_sub_target (target p0 : ℚ) (n : ℕ) :
    |progressIter target p0 n - target| = |p0 - target| * (19/20) ^ n := by
  have h1920 : |(19:ℚ)/20| = 19/20 := by norm_num
  rw [progressIter_sub_target, abs_mul, abs_pow, h1920]

lemma pow_19_20_lt : ((19:ℚ)/20) ^ 280 < 1/1000000 := by
  rw [div_pow, div_lt_div_iff₀ (by positivity) (by norm_num)]
  norm_num

lemma progressStep_mem_unitInterval (target p : ℚ)
    (ht : target = 0 ∨ target = 1) (h0 : 0 ≤ p) (h1 : p ≤ 1) :
    0 ≤ progressStep target p ∧ progressStep target p ≤ 1 := by
  rcases ht with h | h <;> subst h <;> constructor <;>
    simp only [progressStep] <;> linarith

lemma progressRun_mem_unitInterval (ticks : List Bool) :
    ∀ p : ℚ, 0 ≤ p → p ≤ 1 → 0 ≤ progressRun ticks p ∧ progressRun ticks p ≤ 1 := by
  induction ticks with
  | nil => intro p h0 h1; exact ⟨h0, h1⟩
  | cons b rest ih =>
    intro p h0 h1
    have hst := progressStep_mem_unitInterval (if b then 1 else 0) p
      (by cases b <;> simp) h0 h1
    simpa [progressRun] using ih _ hst.1 hst.2

/-- C1: with a constant target `t ∈ {0,1}`, the error after `N` ticks equals
`|p0 - t| * (1 - k)^N` with `k = 0.05` (so `1 - k = 19/20`); the error is
strictly decreasing while nonzero; and from any start in the unit interval the
progress is within `1e-6` of the target after 280 ticks, a concrete bound. -/
theorem progress_converges (t p0 : ℚ) (_ht : t = 0 ∨ t = 1) :
    (∀ N : ℕ, |progressIter t p0 N - t| = |p0 - t| * (19/20) ^ N) ∧
    (p0 ≠ t → ∀ N : ℕ,
      |progressIter t p0 (N + 1) - t| < |progressIter t p0 N - t|) ∧
    (|p0 - t| ≤ 1 → |progressIter t p0 280 - t| < 1/1000000) := by
  refine ⟨abs_progressIter_sub_target t p0, ?_, ?_⟩
  · intro hne N
    rw [abs_progressIter_sub_target, abs_progressIter_sub_target, pow_succ]
    have hpos : 0 < |p0 - t| * (19/20) ^ N := by
      apply mul_pos (abs_pos.mpr (sub_ne_zero.mpr hne))
      positivity
    calc |p0 - t| * ((19/20) ^ N * (19/20))
        = |p0 - t| * (19/20) ^ N * (19/20) := by ring
      _ < |p0 - t| * (19/20) ^ N * 1 := by
          exact mul_lt_mul_of_pos_left (by norm_num) hpos
      _ = |p0 - t| * (19/20) ^ N := by ring
  · intro hb
    rw [abs_progressIter_sub_target]
    calc |p0 - t| * (19/20) ^ 280 ≤ 1 * (19/20) ^ 280 := by
          exact mul_le_mul_of_nonneg_right hb (by positivity)
      _ = (19/20) ^ 280 := one_mul _
      _ < 1/1000000 := pow_19_20_lt

/-- Witness for C1 at `t = 1`, `p0 = 0`: all three hypotheses hold there. -/
theorem progress_converges_witness :
    ((1:ℚ) = 0 ∨ (1:ℚ) = 1) ∧ (0:ℚ) ≠ 1 ∧ |(0:ℚ) - 1| ≤ 1 ∧
    |progressIter 1 0 1 - 1| = |(0:ℚ) - 1| * (19/20) ^ 1 := by
  have h := progress_converges 1 0 (Or.inr rfl)
  exact ⟨Or.inr rfl, by norm_num, by norm_num, h.1 1⟩

/-- C2: starting from the initial value 0, the smoothed progress stays in
`[0,1]` after every tick sequence whose targets lie in `{0,1}` (every prefix
of a tick sequence is itself a tick sequence, so this holds at every tick). -/
theorem progress_bounded (ticks : List Bool) :
    0 ≤ progressRun ticks 0 ∧ progressRun ticks 0 ≤ 1 :=
  progressRun_mem_unitInterval ticks 0 le_rfl (by norm_num)

/-! ### Procedural field generator

Each generator consumes `Math.random()` draws in a fixed order; the
embedding takes those draws as explicit real parameters, in source order. -/

/-- 3D vectors as real triples, componentwise like a three.js Vector3. -/
abbrev Vec3 : Type := ℝ × ℝ × ℝ

noncomputable section

/-- Formed foliage position (Foliage.tsx:103-115) with `treeHeight = 14`,
`maxRadius = 5`; draws in source order: `u1` height, `u2` angle, `u3` radial. -/
def foliageFormedPos (u1 u2 u3 : ℝ) : Vec3 :=
  let treeHeight : ℝ := 14
  let maxRadius : ℝ := 5
  let y := u1 * treeHeight
  let radiusAtY := ((treeHeight - y) / treeHeight) * maxRadius
  let angle := u2 * Real.pi * 2
  let r := Real.sqrt u3 * radiusAtY
  (r * Real.cos angle, y - treeHeight / 3, r * Real.sin angle)

/-- The cone-sampling procedure as the specification words it: height uniform
over the tree height, linear taper `radiusAtY = (treeHeight - y)/treeHeight *
maxRadius`, angle uniform over `2π`, radial distance `sqrt U * radiusAtY`,
Cartesian conversion, and the height recentred by `treeHeight/3`. -/
def specConeFormedPos (treeHeight maxRadius u1 u2 u3 : ℝ) : Vec3 :=
  let y := u1 * treeHeight
  let radiusAtY := (treeHeight - y) / treeHeight * maxRadius
  let angle := 2 * Real.pi * u2
  let r := Real.sqrt u3 * radiusAtY
  (r * Real.cos angle, y - treeHeight / 3, r * Real.sin angle)

/-- Chaos foliage position (Foliage.tsx:117-124): shell radius `15 + 10·u1`,
`theta = u2·2π`, `phi = acos (2·u3 - 1)`, spherical-to-Cartesian. -/
def foliageChaosPos (u1 u2 u3 : ℝ) : Vec3 :=
  let chaosRadius := 15 + u1 * 10
  let theta := u2 * Real.pi * 2
  let phi := Real.arccos (u3 * 2 - 1)
  (chaosRadius * Real.sin phi * Real.cos theta,
   chaosRadius * Real.sin phi * Real.sin theta,
   chaosRadius * Real.cos phi)

/-- Chaos ornament position (Ornaments component, GestureHandler.tsx source
file, lines 167-174): shell radius `10 + 15·u1`, otherwise as the foliage. -/
def ornamentChaosPos (u1 u2 u3 : ℝ) : Vec3 :=
  let chaosRadius := 10 + u1 * 15
  let theta := u2 * Real.pi * 2
  let phi := Real.arccos (u3 * 2 - 1)
  (chaosRadius * Real.sin phi * Real.cos theta,
   chaosRadius * Real.sin phi * Real.sin theta,
   chaosRadius * Real.cos phi)

/-- Chaos photo-panel position (Polaroids.tsx:13-18): horizontal radius
`20 + 10·u1`, angle `u2·2π`, height `(u3 - 0.5)·20`; there is no polar-angle
draw and no `acos` transform. -/
def photoChaosPos (u1 u2 u3 : ℝ) : Vec3 :=
  let r := 20 + u1 * 10
  let theta := u2 * Real.pi * 2
  let y := (u3 - 0.5) * 20
  (r * Real.cos theta, y, r * Real.sin theta)

/-- The spherical-shell sampling procedure exactly as the claim words it:
radius uniform over `[rMin, rMin + rRange]`, `theta` uniform over `[0, 2π)`,
polar angle `phi = acos (Uniform (-1,1))`, standard spherical-to-Cartesian. -/
def specShellPos (rMin rRange u1 u2 u3 : ℝ) : Vec3 :=
  let radius := rMin + u1 * rRange
  let theta := 2 * Real.pi * u2
  let phi := Real.arccos (2 * u3 - 1)
  (radius * Real.sin phi * Real.cos theta,
   radius * Real.sin phi * Real.sin theta,
   radius * Real.cos phi)

/-- The cylindrical sampling the photo panels actually use, as the amended
claim words it: horizontal radius uniform over `[20, 30)`, angle uniform over
`[0, 2π)`, height uniform over `[-10, 10)`. -/
def specCylinderChaosPos (u1 u2 u3 : ℝ) : Vec3 :=
  let radius := 20 + u1 * 10
  let angle := 2 * Real.pi * u2
  let y := 20 * u3 - 10
  (radius * Real.cos angle, y, radius * Real.sin angle)

/-- C3: the formed foliage position is generated exactly by the cone
procedure of the specification (uniform height, linear taper, uniform angle,
square-root radial transform, recentring by `treeHeight/3`), with
`treeHeight = 14` and `maxRadius = 5`. -/
theorem foliage_formed_cone (u1 u2 u3 : ℝ) :
    foliageFormedPos u1 u2 u3 = specConeFormedPos 14 5 u1 u2 u3 := by
  simp only [foliageFormedPos, specConeFormedPos, Prod.mk.injEq]
  and_intros <;> first | trivial | ring_nf

/-- C4 counterexample: at the concrete draws `u1 = 1`, `u2 = 0`, `u3 = 1`
the photo-panel chaos position is not the spherical-shell sample with the
panel's own radial parameters (`rMin = 20`, `rRange = 10`): the code yields
`(30, 10, 0)` while the shell procedure yields `(0, 0, 30)`. -/
theorem photo_chaos_not_shell : photoChaosPos 1 0 1 ≠ specShellPos 20 10 1 0 1 := by
  intro h
  have h2 := congrArg (fun v : Vec3 => v.2.1) h
  norm_num [photoChaosPos, specShellPos] at h2

/-- C4 amended: foliage and ornament chaos positions follow the claimed
spherical-shell procedure (with `rMin = 15, rRange = 10` and `rMin = 10,
rRange = 15` respectively), but the photo-panel chaos position follows a
cylindrical procedure: radius uniform over `[20,30)`, angle uniform, height
uniform over `[-10,10)`, with no polar-angle transform. -/
theorem chaos_positions_amended (u1 u2 u3 : ℝ) :
    foliageChaosPos u1 u2 u3 = specShellPos 15 10 u1 u2 u3 ∧
    ornamentChaosPos u1 u2 u3 = specShellPos 10 15 u1 u2 u3 ∧
    photoChaosPos u1 u2 u3 = specCylinderChaosPos u1 u2 u3 := by
  refine ⟨?_, ?_, ?_⟩ <;>
    simp only [foliageChaosPos, ornamentChaosPos, photoChaosPos, specShellPos,
      specCylinderChaosPos, Prod.mk.injEq] <;>
    and_intros <;> first | trivial | ring_nf

/-! ### Morph animator: position blending and noise -/

/-- GLSL smoothstep with edges `e0`, `e1`: clamp then `t²(3 - 2t)`. -/
def smoothstep (e0 e1 x : ℝ) : ℝ :=
  let t := min (max ((x - e0) / (e1 - e0)) 0) 1
  t * t * (3 - 2 * t)

/-- GLSL mix on scalars: `mix x y a = x·(1-a) + y·a`. -/
def glslMix (x y a : ℝ) : ℝ := x * (1 - a) + y * a

/-- Componentwise GLSL mix on vectors. -/
def mix3 (v w : Vec3) (a : ℝ) : Vec3 :=
  (glslMix v.1 w.1 a, glslMix v.2.1 w.2.1 a, glslMix v.2.2 w.2.2 a)

/-- three.js `lerpVectors`: componentwise `a + (b - a)·t`. -/
def lerp3 (v w : Vec3) (t : ℝ) : Vec3 :=
  (v.1 + (w.1 - v.1) * t, v.2.1 + (w.2.1 - v.2.1) * t, v.2.2 + (w.2.2 - v.2.2) * t)

/-- The oscillatory offset the foliage vertex shader adds to the chaos
position (Foliage.tsx:29-33). -/
def foliageNoise (aRandom uTime : ℝ) : Vec3 :=
  (Real.sin (uTime * 0.5 + aRandom * 10) * 0.5,
   Real.cos (uTime * 0.3 + aRandom * 20) * 0.5,
   Real.sin (uTime * 0.7 + aRandom * 30) * 0.5)

/-- Final foliage vertex position (foliageVertexShader, Foliage.tsx:21-35):
`t = smoothstep(0,1,uProgress)`, `chaosMovement = aChaosPos + noise`,
`finalPos = mix(position, chaosMovement, t)`. -/
def foliageFinalPos (position aChaosPos : Vec3) (aRandom uTime uProgress : ℝ) : Vec3 :=
  let t := smoothstep 0 1 uProgress
  let chaosMovement := aChaosPos + foliageNoise aRandom uTime
  mix3 position chaosMovement t

/-- The floating y-noise of an ornament, as a vector. -/
def ornamentNoise (randomOffset elapsed : ℝ) : Vec3 :=
  (0, Real.sin (elapsed * 1.0 + randomOffset) * 0.1, 0)

/-- Ornament per-frame position (Ornaments useFrame, GestureHandler.tsx source
file, lines 209-213): lerp of the two stored positions then a y-axis float. -/
def ornamentAnimPos (formPos chaosPos : Vec3) (randomOffset elapsed progress : ℝ) : Vec3 :=
  let c := lerp3 formPos chaosPos progress
  (c.1, c.2.1 + Real.sin (elapsed * 1.0 + randomOffset) * 0.1, c.2.2)

/-- The floating y-noise of a photo panel, as a vector. -/
def photoNoise (randomOffset elapsed : ℝ) : Vec3 :=
  (0, Real.sin (elapsed + randomOffset) * 0.2, 0)

/-- Photo-panel per-frame position (Photo useFrame, Polaroids.tsx:24-30). -/
def photoAnimPos (formedPos chaosPos : Vec3) (randomOffset elapsed progress : ℝ) : Vec3 :=
  let c := lerp3 formedPos chaosPos progress
  (c.1, c.2.1 + Real.sin (elapsed + randomOffset) * 0.2, c.2.2)

/-- C5 counterexample: at progress = 0, time `π`, `aRandom = 0` and both
stored positions at the origin, the foliage output is the formed position
`(0,0,0)` exactly, which differs from `formedPosition + noise` since the
noise x-component there is `sin(π/2)·0.5 = 0.5`: the shader attaches the
noise to the chaos side, so at progress 0 no noise contributes. -/
theorem foliage_endpoint_counterexample :
    foliageFinalPos (0,0,0) (0,0,0) 0 Real.pi 0 ≠
      ((0,0,0) : Vec3) + foliageNoise 0 Real.pi := by
  have hL : foliageFinalPos (0,0,0) (0,0,0) 0 Real.pi 0 = ((0,0,0) : Vec3) := by
    norm_num [foliageFinalPos, mix3, glslMix, smoothstep, Prod.ext_iff]
  have hR : (((0,0,0) : Vec3) + foliageNoise 0 Real.pi).1 = 0.5 := by
    simp only [foliageNoise, Prod.fst_add]
    rw [show Real.pi * 0.5 + 0 * 10 = Real.pi / 2 by ring, Real.sin_pi_div_two]
    norm_num
  intro h
  rw [hL] at h
  have h1 := congrArg (fun v : Vec3 => v.1) h
  simp only at h1
  rw [hR] at h1
  norm_num at h1

/-- C5 amended: at progress = 0 the foliage vertex equals its formed position
exactly (the shader scales the noise out with the chaos term), while ornaments
and photo panels equal formed position plus their noise term; at progress = 1
every entity equals its chaos position plus its noise term. -/
theorem morph_endpoints_amended (f c : Vec3) (aRandom offs elapsed : ℝ) :
    foliageFinalPos f c aRandom elapsed 0 = f ∧
    foliageFinalPos f c aRandom elapsed 1 = c + foliageNoise aRandom elapsed ∧
    ornamentAnimPos f c offs elapsed 0 = f + ornamentNoise offs elapsed ∧
    ornamentAnimPos f c offs elapsed 1 = c + ornamentNoise offs elapsed ∧
    photoAnimPos f c offs elapsed 0 = f + photoNoise offs elapsed ∧
    photoAnimPos f c offs elapsed 1 = c + photoNoise offs elapsed := by
  and_intros <;>
    simp [foliageFinalPos, ornamentAnimPos, photoAnimPos, mix3, glslMix,
      lerp3, smoothstep, foliageNoise, ornamentNoise, photoNoise,
      Prod.ext_iff] <;> and_intros <;> ring_nf

/-! ### Morph animator: orientation -/

/-- three.js `Quaternion.setFromAxisAngle` for an axis `(x,y,z)` and angle
`a`: the quaternion `(cos(a/2), x·sin(a/2), y·sin(a/2), z·sin(a/2))`.
`rotateOnAxis` right-multiplies the current quaternion by this value, and
`rotation.set(0, a, 0)` (Euler, XYZ order) equals this value at axis
`(0,1,0)`. -/
def quatAxisAngle (ax : Vec3) (a : ℝ) : Quaternion ℝ :=
  ⟨Real.cos (a / 2), ax.1 * Real.sin (a / 2),
   ax.2.1 * Real.sin (a / 2), ax.2.2 * Real.sin (a / 2)⟩

/-- One orientation update of an instanced ornament (Ornaments useFrame,
GestureHandler.tsx source file, lines 217-224): above progress 0.5 the
scratch object's orientation `q` is advanced by `rotateOnAxis(rotAxis,
rotSpeed * 0.1)`; otherwise the rotation is set absolutely to the Euler
angles `(0, elapsed * 0.2 + randomOffset, 0)`. The frame callback also
receives the frame time delta `delta`, which this update never reads. -/
def ornamentOrientStep (q : Quaternion ℝ) (rotAxis : Vec3)
    (rotSpeed progress elapsed randomOffset delta : ℝ) : Quaternion ℝ :=
  if 0.5 < progress then q * quatAxisAngle rotAxis (rotSpeed * 0.1)
  else quatAxisAngle (0, 1, 0) (elapsed * 0.2 + randomOffset)

/-- Modelled from the claim's words: the same update, except that the
incremental rotation angle is `rotSpeed * delta` (rotation speed times the
frame time delta) instead of the code's fixed `rotSpeed * 0.1`. -/
def claimOrientStep (q : Quaternion ℝ) (rotAxis : Vec3)
    (rotSpeed progress elapsed randomOffset delta : ℝ) : Quaternion ℝ :=
  if 0.5 < progress then q * quatAxisAngle rotAxis (rotSpeed * delta)
  else quatAxisAngle (0, 1, 0) (elapsed * 0.2 + randomOffset)

lemma cos_tenth_lt_cos_twentieth : Real.cos (1/10 : ℝ) < Real.cos (1/20 : ℝ) := by
  have h3 := Real.pi_gt_three
  exact Real.strictAntiOn_cos
    (Set.mem_Icc.mpr ⟨by norm_num, by linarith⟩)
    (Set.mem_Icc.mpr ⟨by norm_num, by linarith⟩) (by norm_num)

/-- C6 counterexample: with identity orientation, unit rotation speed, axis
`(0,0,1)`, progress 1 and frame delta `1/5`, the code advances by the fixed
angle `rotSpeed * 0.1 = 1/10` while the claim's `rotationSpeed * timeDelta`
advances by `1/5`; the resulting quaternions differ in their real parts
(`cos(1/20) ≠ cos(1/10)`). -/
theorem ornament_rotation_counterexample :
    ornamentOrientStep 1 (0, 0, 1) 1 1 0 0 (1/5) ≠
      claimOrientStep 1 (0, 0, 1) 1 1 0 0 (1/5) := by
  have hcode : ornamentOrientStep 1 (0, 0, 1) 1 1 0 0 (1/5) =
      quatAxisAngle (0, 0, 1) (1/10) := by
    simp only [ornamentOrientStep, if_pos (by norm_num : (0.5:ℝ) < 1), one_mul]
    norm_num
  have hclaim : claimOrientStep 1 (0, 0, 1) 1 1 0 0 (1/5) =
      quatAxisAngle (0, 0, 1) (1/5) := by
    simp only [claimOrientStep, if_pos (by norm_num : (0.5:ℝ) < 1), one_mul]
  intro h
  rw [hcode, hclaim] at h
  have hre := congrArg QuaternionAlgebra.re h
  simp only [quatAxisAngle] at hre
  rw [show (1:ℝ)/10/2 = 1/20 by norm_num, show (1:ℝ)/5/2 = 1/10 by norm_num] at hre
  have := cos_tenth_lt_cos_twentieth
  linarith

/-- C6 amended: on every frame the ornament orientation update is a hard
switch at progress 0.5 with no blending: above 0.5 it advances the current
orientation by an incremental rotation about the entity's static axis with
the fixed angle `rotSpeed * 0.1` (independent of the frame time delta, which
the code never reads); at or below 0.5 it sets the orientation absolutely to
a rotation about the fixed Y axis by `elapsed * 0.2 + randomOffset`. -/
theorem ornament_rotation_amended (q : Quaternion ℝ) (ax : Vec3)
    (s p e o d d' : ℝ) :
    ornamentOrientStep q ax s p e o d =
      (if 0.5 < p then q * quatAxisAngle ax (s * 0.1)
       else quatAxisAngle (0, 1, 0) (e * 0.2 + o)) ∧
    ornamentOrientStep q ax s p e o d = ornamentOrientStep q ax s p e o d' := by
  exact ⟨rfl, rfl⟩

/-! ### Spiral photo-panel placement (Polaroids.tsx:72-95)

`count = 12`, `treeHeight = 10`, `maxRadius = 4.5`. -/

/-- Height of panel `i`: `(i/count)·treeHeight - treeHeight/3`. -/
def polaroidY (i : ℕ) : ℝ := ((i : ℝ) / 12) * 10 - 10 / 3

/-- Radius of panel `i` (Polaroids.tsx:81):
`((treeHeight/3 + y + 4)/treeHeight) · maxRadius · 1.1`. -/
def polaroidR (i : ℕ) : ℝ := ((10 / 3 + polaroidY i + 4) / 10) * 4.5 * 1.1

/-- Angle of panel `i`: `i · 1.5`. -/
def polaroidAngle (i : ℕ) : ℝ := (i : ℝ) * 1.5

/-- Formed position of panel `i`. -/
def polaroidPos (i : ℕ) : Vec3 :=
  (polaroidR i * Real.cos (polaroidAngle i), polaroidY i,
   polaroidR i * Real.sin (polaroidAngle i))

/-- The radius the claim asserts: the linear taper formula of the random
cone, applied to the panel's height above the base, `y_i + treeHeight/3`. -/
def polaroidTaperR (i : ℕ) : ℝ := ((10 - (polaroidY i + 10 / 3)) / 10) * 4.5

/-- C7 counterexample: at index 0 the code's radius is `1.98` while the taper
formula of the random cone gives `4.5` (or `4.95` with the same `1.1` outward
factor); moreover the code's radius grows with height (`r_0 < r_11`) instead
of shrinking to 0 at the apex. -/
theorem polaroid_radius_counterexample :
    polaroidR 0 ≠ polaroidTaperR 0 ∧ polaroidR 0 ≠ polaroidTaperR 0 * 1.1 ∧
    polaroidR 0 < polaroidR 11 := by
  norm_num [polaroidR, polaroidTaperR, polaroidY]

/-- C7 amended: the spiral placement is deterministic in the index:
`angle_i = 1.5·i`, `y_i = (i/count)·treeHeight - treeHeight/3`, and
`r_i = ((y_i + treeHeight/3 + 4)/treeHeight)·maxRadius·1.1`, a radius that
grows with height rather than following the taper of the random cone; for
`count = 12` no two panels' formed positions coincide, because the 12 heights
are pairwise distinct. -/
theorem polaroid_spiral_amended (i j : ℕ) (_hi : i < 12) (_hj : j < 12)
    (hij : i ≠ j) :
    polaroidPos i =
      (polaroidR i * Real.cos ((i : ℝ) * 1.5), ((i : ℝ) / 12) * 10 - 10 / 3,
       polaroidR i * Real.sin ((i : ℝ) * 1.5)) ∧
    polaroidPos i ≠ polaroidPos j := by
  refine ⟨rfl, ?_⟩
  intro h
  have h2 := congrArg (fun v : Vec3 => v.2.1) h
  simp only [polaroidPos, polaroidY] at h2
  have hcast : (i : ℝ) = (j : ℝ) := by linarith
  exact hij (Nat.cast_injective hcast)

/-- Witness for C7 at indices 0 and 1. -/
theorem polaroid_spiral_witness :
    (0:ℕ) < 12 ∧ (1:ℕ) < 12 ∧ (0:ℕ) ≠ 1 ∧ polaroidPos 0 ≠ polaroidPos 1 :=
  ⟨by norm_num, by norm_num, by norm_num,
    (polaroid_spiral_amended 0 1 (by norm_num) (by norm_num) (by norm_num)).2⟩

/-! ### Gesture samples and their consumption (GestureHandler.tsx, App.tsx) -/

/-- The per-frame gesture sample passed to the application. -/
structure GestureSample where
  isOpen : Bool
  x : ℝ
  y : ℝ
  detected : Bool

/-- Hand landmarks as 21 planar points, indexed as by the detector. -/
def Landmarks : Type := Fin 21 → ℝ × ℝ

/-- The sample the `predict` callback emits (GestureHandler.tsx:59-110): with
no detected hand it reports `{isOpen: false, x: 0, y: 0, detected: false}`;
with landmarks it computes the mirrored hand centre and the open-palm
heuristic (average fingertip-to-wrist distance above 0.3). -/
def predictEmit (lm : Option Landmarks) : GestureSample :=
  match lm with
  | none => ⟨false, 0, 0, false⟩
  | some l =>
    let wrist := l 0
    let thumbTip := l 4
    let indexTip := l 8
    let middleTip := l 12
    let ringTip := l 16
    let pinkyTip := l 20
    let centerX := (thumbTip.1 + pinkyTip.1) / 2
    let centerY := (thumbTip.2 + wrist.2) / 2
    let normalizedX := (centerX - 0.5) * 2
    let normalizedY := (centerY - 0.5) * 2
    let dW := fun tip : ℝ × ℝ =>
      Real.sqrt ((tip.1 - wrist.1) ^ 2 + (tip.2 - wrist.2) ^ 2)
    let avgDist := (dW indexTip + dW middleTip + dW ringTip + dW pinkyTip) / 4
    ⟨if 0.3 < avgDist then true else false, -normalizedX, -normalizedY, true⟩

/-- The morph target App computes from the stored sample (App.tsx:99). -/
def appTarget (s : GestureSample) : ℚ := if s.isOpen then 1 else 0

/-- The aim input App supplies to the scene (App.tsx:125-126): the hand
position if detected, else `(0,0)`. -/
def appAim (s : GestureSample) : ℝ × ℝ :=
  (if s.detected then s.x else 0, if s.detected then s.y else 0)

/-- One camera-rig x update (App.tsx:27), `lerp(camX, baseX + aimX·10, 0.05)`
with `baseX = 0`. -/
def cameraStepX (camX aimX : ℝ) : ℝ := camX + (0 + aimX * 10 - camX) * 0.05

/-- C8: a non-detected tick is a valid input state: the emitted sample makes
the morph target 0 (FORMED) and the aim supplied to the camera `(0,0)`; a
stale hand position is never held, since any sample with `detected = false`
yields aim `(0,0)`, under which the camera x offset decays geometrically to
its base. -/
theorem no_detection_formed_default (lm : Option Landmarks)
    (h : (predictEmit lm).detected = false) :
    appTarget (predictEmit lm) = 0 ∧ appAim (predictEmit lm) = (0, 0) ∧
    (∀ s : GestureSample, s.detected = false → appAim s = (0, 0)) ∧
    (∀ camX : ℝ, cameraStepX camX 0 = camX * 0.95) := by
  have haim : ∀ s : GestureSample, s.detected = false → appAim s = (0, 0) := by
    intro s hs; simp [appAim, hs]
  have hcam : ∀ camX : ℝ, cameraStepX camX 0 = camX * 0.95 := by
    intro camX; simp only [cameraStepX]; ring
  cases lm with
  | none => exact ⟨rfl, haim _ h, haim, hcam⟩
  | some l => simp [predictEmit] at h

/-- Witness for C8 at the absent sample. -/
theorem no_detection_formed_default_witness :
    (predictEmit none).detected = false ∧ appTarget (predictEmit none) = 0 :=
  ⟨rfl, (no_detection_formed_default none rfl).1⟩

/-! ### Ornament entity generation and per-frame state (Ornaments component,
GestureHandler.tsx source file) -/

/-- Per-entity static record built once at setup (lines 150-193 of the
Ornaments source). -/
structure OrnamentEntity where
  formPos : Vec3
  chaosPos : Vec3
  scale : ℝ
  rotSpeed : ℝ
  rotAxis : Vec3
  color : Vec3
  randomOffset : ℝ

/-- three.js `Vector3.normalize`: divide by the length, or by 1 when the
length is 0. -/
def normalize3 (v : Vec3) : Vec3 :=
  let len := Real.sqrt (v.1 ^ 2 + v.2.1 ^ 2 + v.2.2 ^ 2)
  if len = 0 then v else (v.1 / len, v.2.1 / len, v.2.2 / len)

/-- The colour of `new THREE.Color(undefined)`, used when the palette draw
indexes past the end of the palette: white. -/
def defaultWhite : Vec3 := (1, 1, 1)

/-- One ornament entity from the thirteen `Math.random()` draws, in source
order (`d 0` height, `d 1` angle, `d 2` surface factor, `d 3` chaos radius,
`d 4` theta, `d 5` phi, `d 6` scale, `d 7` rotation speed, `d 8`-`d 10`
rotation axis, `d 11` colour index, `d 12` phase offset); `treeHeight = 12`,
`maxRadius = 5.5`. No input is rejected: there is no validation branch. -/
def ornamentEntityGen (palette : List Vec3) (d : ℕ → ℝ) : OrnamentEntity :=
  let treeHeight : ℝ := 12
  let maxRadius : ℝ := 5.5
  let y := d 0 * treeHeight
  let rAtY := ((treeHeight - y) / treeHeight) * maxRadius
  let angle := d 1 * Real.pi * 2
  let r := rAtY * (0.8 + d 2 * 0.3)
  { formPos := (r * Real.cos angle, y - treeHeight / 3, r * Real.sin angle)
    chaosPos := ornamentChaosPos (d 3) (d 4) (d 5)
    scale := 0.3 + d 6 * 0.4
    rotSpeed := (d 7 - 0.5) * 2
    rotAxis := normalize3 (d 8, d 9, d 10)
    color := palette.getD (⌊d 11 * (palette.length : ℝ)⌋).toNat defaultWhite
    randomOffset := d 12 * 100 }

/-- All entity data of one Ornaments set: `new Array(count).fill(0).map(...)`
with no validation of the count or the palette. -/
def ornamentsData (count : ℕ) (palette : List Vec3) (d : ℕ → ℕ → ℝ) :
    List OrnamentEntity :=
  (List.range count).map fun i => ornamentEntityGen palette (d i)

/-- C9: the code performs no construction-time validation: at `count = 0` it
silently yields a zero-length entity array, and with an empty palette the
colour draw silently falls back to the white of `new THREE.Color(undefined)`;
no descriptive failure is raised in either case. -/
theorem ornaments_no_validation :
    ornamentsData 0 [defaultWhite] (fun _ _ => 0) = [] ∧
    (ornamentsData 1 [] (fun _ _ => 0)).map OrnamentEntity.color =
      [defaultWhite] := by
  constructor
  · simp [ornamentsData]
  · simp [ornamentsData, ornamentEntityGen, List.range_succ]

/-- The scratch transform (`tempObj`) and the per-instance output transform
written by `setMatrixAt`: position, orientation, uniform scale. -/
structure Transform where
  position : Vec3
  orientation : Quaternion ℝ
  scale : ℝ

/-- Scene state of one Ornaments set: static entity data plus the instance
transform buffer the frame callback writes. -/
structure OrnamentsState where
  data : List OrnamentEntity
  transforms : List Transform

/-- A freshly constructed `THREE.Object3D` scratch transform. -/
def initialScratch : Transform := ⟨(0, 0, 0), 1, 1⟩

/-- The body of `data.forEach` in the Ornaments frame callback (lines 209-229
of the Ornaments source): builds this frame's instance transforms, threading
the scratch object through the loop; it reads the static entity fields and
writes only the output transforms. -/
def ornamentsForEach (elapsed progress : ℝ) :
    List OrnamentEntity → Transform → List Transform
  | [], _ => []
  | e :: rest, temp =>
    let t : Transform :=
      { position := ornamentAnimPos e.formPos e.chaosPos e.randomOffset elapsed progress
        orientation := ornamentOrientStep temp.orientation e.rotAxis e.rotSpeed
          progress elapsed e.randomOffset 0
        scale := e.scale }
    t :: ornamentsForEach elapsed progress rest t

/-- One frame of the Ornaments component (useFrame, lines 203-231 of the
Ornaments source): recomputes the instance transforms from the static entity
data; the entity data itself is never written. -/
def ornamentsFrame (elapsed progress : ℝ) (st : OrnamentsState) : OrnamentsState :=
  { data := st.data
    transforms := ornamentsForEach elapsed progress st.data initialScratch }

/-- Foliage scene state: the static vertex attributes and the two uniforms
the frame callback writes (Foliage.tsx:131-137). -/
structure FoliageState where
  positions : List Vec3
  chaosPositions : List Vec3
  randoms : List ℝ
  uTime : ℝ
  uProgress : ℝ

/-- One frame of the Foliage component: writes the two uniforms only. -/
def foliageFrame (elapsed progress : ℝ) (st : FoliageState) : FoliageState :=
  { st with uTime := elapsed, uProgress := progress }

/-- C10: per-frame stepping writes only the output transforms and uniforms:
after any number of animation ticks the ornament entity data (formed and
chaos positions, colour, scale, rotation axis and speed, phase offset) and
the foliage vertex attributes are identical to their initial values. -/
theorem frame_preserves_entities (elapsed progress : ℝ) (n : ℕ)
    (st : OrnamentsState) (fs : FoliageState) :
    ((ornamentsFrame elapsed progress)^[n] st).data = st.data ∧
    ((foliageFrame elapsed progress)^[n] fs).positions = fs.positions ∧
    ((foliageFrame elapsed progress)^[n] fs).chaosPositions = fs.chaosPositions ∧
    ((foliageFrame elapsed progress)^[n] fs).randoms = fs.randoms := by
  induction n with
  | zero => simp
  | succ n ih =>
    simp only [Function.iterate_succ_apply', ornamentsFrame, foliageFrame]
    exact ⟨ih.1, ih.2.1, ih.2.2.1, ih.2.2.2⟩

end

end MorphEngine
